import Mathlib

/-!
Verification development for the wsjson repository: a JSON-RPC 2.0 service
registry and per-connection session over a WebSocket transport.

The Go source is shallowly embedded: JSON values are an inductive `Json`
(numbers as exact rationals, matching encoding/json's float64 view of wire
numbers for the magnitudes used here), Go reflect types are `GoType`,
`encoding/json` decoding success is `canUnmarshal`, and the stateful session
(`WsJsonClient`) is explicit state passing over a `Client` record.  Logging
is modelled as a list of emitted message prefixes, channel delivery as an
append-only list of (channel handle, payload) pairs.
-/

namespace Wsjson

/-- A JSON value as decoded from the wire.  Numbers are exact rationals:
encoding/json decodes every JSON number into a float64, and all numbers in
this development are small enough that the float64 is exact. -/
inductive Json where
  | null
  | bool (b : Bool)
  | num (q : ℚ)
  | str (s : String)
  | arr (elems : List Json)
  | obj (members : List (String × Json))


/-- A Go type as seen by the reflection-driven decoder.  `anyT` is
`interface\x7b\x7d`, `errorT` is the built-in `error` interface. -/
inductive GoType where
  | intT
  | stringT
  | floatT
  | boolT
  | anyT
  | errorT
  | ptrT (t : GoType)
  | sliceT (t : GoType)
  | structT (name : String) (fields : List (String × GoType))


/-- Strip every pointer layer: json.Unmarshal allocates through pointers, so
decoding a non-null value into `*T` behaves as decoding into `T`. -/
def GoType.stripPtr : GoType → GoType
  | GoType.ptrT t => t.stripPtr
  | t => t

/-- Strip exactly one pointer layer, as `decodeParams` does on the single
argument type before testing for a struct kind. -/
def derefOnce : GoType → GoType
  | GoType.ptrT t => t
  | t => t

mutual
/-- Whether `json.Unmarshal` of the JSON value `j` into a freshly allocated
value of Go type `t` succeeds.  JSON null is a no-op for every target type;
a number decodes into an int only when integral; unknown object keys are
ignored; decoding into a non-empty interface (`errorT`) fails. -/
def canUnmarshal (t : GoType) (j : Json) : Bool :=
  match j with
  | Json.null => true
  | Json.num q =>
    match t.stripPtr with
    | GoType.intT => q.den == 1
    | GoType.floatT => true
    | GoType.anyT => true
    | _ => false
  | Json.str _ =>
    match t.stripPtr with
    | GoType.stringT => true
    | GoType.anyT => true
    | _ => false
  | Json.bool _ =>
    match t.stripPtr with
    | GoType.boolT => true
    | GoType.anyT => true
    | _ => false
  | Json.arr xs =>
    match t.stripPtr with
    | GoType.sliceT et => canUnmarshalList et xs
    | GoType.anyT => true
    | _ => false
  | Json.obj kvs =>
    match t.stripPtr with
    | GoType.structT _ fields => canUnmarshalFields fields kvs
    | GoType.anyT => true
    | _ => false

/-- Every element of a JSON array decodes into the slice element type. -/
def canUnmarshalList (t : GoType) : List Json → Bool
  | [] => true
  | x :: xs => canUnmarshal t x && canUnmarshalList t xs

/-- Every member of a JSON object whose key names a struct field decodes into
that field's type; members with no matching field are ignored. -/
def canUnmarshalFields (fields : List (String × GoType)) : List (String × Json) → Bool
  | [] => true
  | (k, v) :: kvs =>
    (match fields.find? (fun f => f.1 == k) with
     | some f => canUnmarshal f.2 v
     | none => true) && canUnmarshalFields fields kvs
end

/-! ### Frame types and error codes (api.go) -/

/-- JSONRPCVersion constant. -/
def JSONRPCVersion : String := "2.0"

/-- ErrorParse code. -/
def ErrorParse : Int := -32700

/-- ErrorInvalidRequest code. -/
def ErrorInvalidRequest : Int := -32600

/-- ErrorMethodNotFound code. -/
def ErrorMethodNotFound : Int := -32601

/-- ErrorInvalidParams code. -/
def ErrorInvalidParams : Int := -32602

/-- ErrorInternalError code. -/
def ErrorInternalError : Int := -32603

/-- The JSON-RPC error object (`Error` in api.go): code, message, optional
structured data. -/
structure RpcError where
  code : Int
  message : String
  data : Option Json

/-- NewError: build an error with no data.  The Go original formats the
message with `fmt.Sprintf`; the embedding receives the already-formatted
message string. -/
def newErr (code : Int) (message : String) : RpcError :=
  { code := code, message := message, data := none }

/-- NewErrorWithData. -/
def newErrWithData (code : Int) (message : String) (data : Option Json) : RpcError :=
  { code := code, message := message, data := data }

/-- The decoded inbound/outbound frame (`Request` in the source, extended with
the `Result` field that `handleMessage`/`handleResult` read and that
`SendMessage` leaves unset).  Conventions of the embedding:
`params`/`result` are `none` when the key is absent (a nil `json.RawMessage`)
and `some Json.null` when the wire carries a literal `null`;
`id` is the `interface\x7b\x7d` decoded by encoding/json, which is `none`
both when absent and when null (Go decodes JSON null to a nil interface),
and `some (Json.num q)` for a wire number (Go decodes every number to
float64). -/
structure Request where
  version : String
  method : String
  params : Option Json
  result : Option Json
  id : Option Json

/-- The outbound response frame (`Response` in api.go).  `result` is the
`interface\x7b\x7d` field (`none` models the Go nil interface), `err` the
optional error object. -/
structure Response where
  version : String
  result : Option Json
  err : Option RpcError
  id : Option Json

/-- NewErrorResponse: an error response with a null id. -/
def NewErrorResponse (e : RpcError) : Response :=
  { version := JSONRPCVersion, result := none, err := some e, id := none }

/-- Request.makeError: an error response echoing the request's id. -/
def makeError (req : Request) (code : Int) (message : String) : Response :=
  { version := JSONRPCVersion, result := none, err := some (newErr code message), id := req.id }

/-! ### Service registry (service.go) -/

/-- Go error values crossing the `error` interface: either a typed JSON-RPC
`*Error` (which `handleRequest` detects by type assertion) or a plain error
carrying only a message. -/
inductive GoErr where
  | rpc (e : RpcError)
  | plain (msg : String)

/-- GoErr.text is the Go `Error() string` method: for `*Error` it returns the
message field. -/
def GoErr.text : GoErr → String
  | GoErr.rpc e => e.message
  | GoErr.plain m => m

/-- A decoded argument placed in `paramValues`: the receiver slot
(`paramValues[0] = am.service.value`) or a fresh value of type `t` filled by
`json.Unmarshal` from the JSON value `j`. -/
inductive GoArg where
  | recv
  | val (t : GoType) (j : Json)

/-- Shared mutable state of the registered service instances (handlers may
mutate their receivers; the framework is agnostic to its shape). -/
abbrev ServState : Type := List Json

/-- One output value of a `reflect.Call`: a non-error output whose
`.Interface()` is `v` (`none` models a nil interface, possible only when the
declared output type is an interface), or the error-typed output
(`none` models `IsNil()`). -/
inductive OutVal where
  | val (v : Option Json)
  | errv (e : Option GoErr)

/-- response[0].Interface() as read by `callMethod`.  An error-typed value in
the first output slot cannot occur for methods accepted by
`newServiceMethod` (reflect.Call returns the declared output types), so it is
modelled as a nil interface. -/
def outIface : OutVal → Option Json
  | OutVal.val v => v
  | OutVal.errv _ => none

/-- A method of a service instance as reported by `reflect.Type.Method` /
`MethodByName` (exported methods only, as reflect exposes them), together
with its behaviour (`impl` models `Func.Call` on the receiver plus decoded
arguments, threading the shared service state). -/
structure GoMethod where
  name : String
  pkgPath : String
  inTypes : List GoType
  outs : List GoType
  impl : List GoArg → ServState → ServState × List OutVal

/-- An exposed service method (`serviceMethod`). -/
structure ServiceMethod where
  methodName : String
  argTypes : List GoType
  isEvent : Bool
  returnType : Option GoType
  impl : List GoArg → ServState → ServState × List OutVal

/-- A registered service (`service`): its method map. -/
structure Service where
  methods : List (String × ServiceMethod)

/-- The registry (`serviceManager`): services keyed by name.  The RWMutex only
guards map access and has no sequential effect. -/
structure ServiceManager where
  services : List (String × Service)

/-- Go map assignment `m[k] = v` on an association list: replaces the entry if
the key is present, appends otherwise. -/
def mapInsert {α : Type} [BEq α] {β : Type} (m : List (α × β)) (k : α) (v : β) :
    List (α × β) :=
  if m.any (fun p => p.1 == k) then
    m.map (fun p => if p.1 == k then (k, v) else p)
  else m ++ [(k, v)]

/-- Go map lookup `m[k]` returning the two-valued form. -/
def mapLookup {α : Type} [BEq α] {β : Type} (m : List (α × β)) (k : α) : Option β :=
  (m.find? (fun p => p.1 == k)).map (fun p => p.2)

/-- A service instance as the introspector sees it: the optional
NameProvider / PrefixProvider / MethodsProvider capabilities, the runtime
type name (`reflect.Indirect(value).Type().Name()`), and the exported method
set. -/
structure ServiceInstance where
  typeName : String
  wsName : Option String
  wsPfx : Option String
  wsMethods : Option (List (String × String))
  methods : List GoMethod

/-- Default prefix for exposed methods (`defMethodPrefix`). -/
def defMethodPfx : String := "Api"

/-- strings.Split on a one-character separator, character by character:
`splitCharsAux sep acc cs` appends the pending (reversed) chunk `acc` on the
separator or at the end.  `strings.Split("", sep) = [""]` holds. -/
def splitCharsAux (sep : Char) : List Char → List Char → List (List Char)
  | acc, [] => [acc.reverse]
  | acc, c :: cs =>
    if c == sep then acc.reverse :: splitCharsAux sep [] cs
    else splitCharsAux sep (c :: acc) cs

/-- strings.Split(s, sep) for a one-character separator (the source only
splits on "."). -/
def goSplit (s : String) (sep : Char) : List String :=
  (splitCharsAux sep [] s.toList).map (fun cs => String.mk cs)

/-- strings.HasPrefix on character lists: the first list is the candidate
prefix. -/
def listHasPfx : List Char → List Char → Bool
  | [], _ => true
  | _ :: _, [] => false
  | a :: as, b :: bs => a == b && listHasPfx as bs

/-- strings.HasPrefix(s, p). -/
def goHasPfx (s p : String) : Bool :=
  listHasPfx p.toList s.toList

/-- strings.TrimPrefix(s, p) under the guarantee that p is a prefix of s:
drop p's characters. -/
def goTrimPfx (s p : String) : String :=
  String.mk (s.toList.drop p.toList.length)

/-- GoType.isError: whether a reflect type is the built-in error interface
(`typeOfError` comparison). -/
def GoType.isError : GoType → Bool
  | GoType.errorT => true
  | _ => false

/-- newServiceMethod: validate one reflect method and build its descriptor.
Checks, in source order: exported; at least one input (the receiver); output
arity 0 (event) or 2 (call); for calls, the last output must be `error`. -/
def newServiceMethod (gm : GoMethod) : Except String ServiceMethod :=
  if gm.pkgPath ≠ "" then
    Except.error ("Method must be exported: " ++ gm.name)
  else if gm.inTypes.length < 1 then
    Except.error ("Method must have at least one input argument: " ++ gm.name)
  else
    match gm.outs.length with
    | 0 =>
      Except.ok { methodName := gm.name, argTypes := gm.inTypes.drop 1, isEvent := true,
                  returnType := none, impl := gm.impl }
    | 2 =>
      if (match gm.outs.getLast? with
          | some t => t.isError
          | none => false) = false then
        Except.error (s!"Method \x27{gm.name}\x27 last output must be of type error")
      else
        Except.ok { methodName := gm.name, argTypes := gm.inTypes.drop 1, isEvent := false,
                    returnType := gm.outs.head?, impl := gm.impl }
    | n + 1 =>
      Except.error (s!"Method \x27{gm.name}\x27 must have 0 or 2 outputs, found: {n + 1}")

/-- addMethodsByPrefix: keep every exported method whose name starts with the
prefix (default "Api", overridable through PrefixProvider), validating each
and storing it under the name with the prefix stripped. -/
def addMethodsByPfx (inst : ServiceInstance) : Except String (List (String × ServiceMethod)) :=
  let pfx := match inst.wsPfx with
    | some p => p
    | none => defMethodPfx
  inst.methods.foldlM
    (fun acc gm =>
      if goHasPfx gm.name pfx then
        match newServiceMethod gm with
        | Except.error e => Except.error e
        | Except.ok sm => Except.ok (mapInsert acc (goTrimPfx gm.name pfx) sm)
      else Except.ok acc)
    []

/-- addMethodsFromProvider: each entry of the WsMethods map must resolve, via
MethodByName, to an exported method of the instance. -/
def addMethodsFromProvider (inst : ServiceInstance) (mapping : List (String × String)) :
    Except String (List (String × ServiceMethod)) :=
  mapping.foldlM
    (fun acc entry =>
      match inst.methods.find? (fun gm => gm.name == entry.2) with
      | none => Except.error (s!"WSMethods(): {entry.2} is not a method of " ++ inst.typeName)
      | some gm =>
        match newServiceMethod gm with
        | Except.error e => Except.error e
        | Except.ok sm => Except.ok (mapInsert acc entry.1 sm))
    []

/-- The service name derived by addService: the NameProvider result if the
instance provides one and it is non-empty, otherwise the runtime type name. -/
def derivedName (inst : ServiceInstance) : String :=
  let n0 := match inst.wsName with
    | some n => n
    | none => ""
  if n0 = "" then inst.typeName else n0

/-- The method map built by addService: from the MethodsProvider mapping when
the instance implements one, otherwise by prefix discovery. -/
def buildMethodsE (inst : ServiceInstance) : Except String (List (String × ServiceMethod)) :=
  match inst.wsMethods with
  | some mapping => addMethodsFromProvider inst mapping
  | none => addMethodsByPfx inst

/-- addService: reject a nil instance, derive the name (failing when empty),
discover and validate the methods (failing when none survive), then insert
into the services map with plain map assignment — an existing entry under the
same name is overwritten. -/
def addService (m : ServiceManager) (inst : Option ServiceInstance) :
    Except String ServiceManager :=
  match inst with
  | none => Except.error "Attempt to add nil service instance"
  | some inst =>
    let name := derivedName inst
    if name = "" then
      Except.error ("Unable to get a name for: " ++ inst.typeName)
    else
      match buildMethodsE inst with
      | Except.error e => Except.error e
      | Except.ok methods =>
        if methods.length = 0 then
          Except.error ("No exposed methods found for " ++ inst.typeName)
        else
          Except.ok { services := mapInsert m.services name { methods := methods } }

/-- newServiceManager. -/
def newServiceManager : ServiceManager := { services := [] }

/-- numServices. -/
def numServices (m : ServiceManager) : Nat := m.services.length

/-- numMethods. -/
def numMethods (m : ServiceManager) : Nat :=
  m.services.foldl (fun c p => c + p.2.methods.length) 0

/-- getMethod: split the wire name on "."; the part count must be exactly two
(emptiness of the parts is not checked); then look up service and method. -/
def getMethod (m : ServiceManager) (name : String) : Except RpcError ServiceMethod :=
  match goSplit name '.' with
  | [servName, methodName] =>
    match mapLookup m.services servName with
    | none => Except.error (newErr ErrorMethodNotFound ("API not found: " ++ servName))
    | some api =>
      match mapLookup api.methods methodName with
      | none => Except.error (newErr ErrorMethodNotFound
          (s!"API {servName} doesn\x27t have the {methodName} method"))
      | some method => Except.ok method
  | _ => Except.error (newErr ErrorMethodNotFound ("Invalid method name: " ++ name))

/-! ### Parameter decoder (serviceMethod.decodeParams) -/

/-- Decode the elements of the params array: element `i` is unmarshalled into
a fresh value of `argTypes[i]`.  The Go error detail produced by
encoding/json is abstracted as a fixed placeholder, since the source embeds
`err.Error()` verbatim. -/
def decodeElems : List GoType → List Json → Nat → Except RpcError (List GoArg)
  | t :: ts, p :: ps, i =>
    if canUnmarshal t p then
      match decodeElems ts ps (i + 1) with
      | Except.ok rest => Except.ok (GoArg.val t p :: rest)
      | Except.error e => Except.error e
    else
      Except.error (newErr ErrorInvalidParams (s!"Unable to decode parameter {i}: json decode error"))
  | _, _, _ => Except.ok []

/-- decodeParams.  When the method has exactly one non-receiver argument and
that argument (after one pointer dereference) is a struct, `params` is
unmarshalled directly into the struct — unconditionally, whatever JSON shape
`params` has; a failure (including absent params, whose empty raw buffer
json.Unmarshal rejects) yields INVALID_PARAMS "Params must be an object".
Otherwise `params` is treated as an array: absent (nil raw buffer) or JSON
null give the empty array, a non-array is INVALID_PARAMS "Params must be an
array", the length must equal the argument count, and each element is
decoded into its argument type.  The receiver occupies `paramValues[0]`. -/
def decodeParams (sm : ServiceMethod) (params : Option Json) : Except RpcError (List GoArg) :=
  let sugar : Option (Except RpcError (List GoArg)) :=
    match sm.argTypes with
    | [firstType] =>
      match derefOnce firstType with
      | GoType.structT sn sf =>
        some (match params with
          | none => Except.error (newErr ErrorInvalidParams "Params must be an object")
          | some pj =>
            if canUnmarshal (GoType.structT sn sf) pj then
              Except.ok [GoArg.recv, GoArg.val firstType pj]
            else
              Except.error (newErr ErrorInvalidParams "Params must be an object"))
      | _ => none
    | _ => none
  match sugar with
  | some r => r
  | none =>
    let arrRes : Except RpcError (List Json) :=
      match params with
      | none => Except.ok []
      | some (Json.arr xs) => Except.ok xs
      | some Json.null => Except.ok []
      | some _ => Except.error (newErr ErrorInvalidParams "Params must be an array")
    match arrRes with
    | Except.error e => Except.error e
    | Except.ok paramsArray =>
      if paramsArray.length ≠ sm.argTypes.length then
        Except.error (newErr ErrorInvalidParams
          s!"Wrong number of arguments, expected: {sm.argTypes.length}, got: {paramsArray.length}")
      else
        match decodeElems sm.argTypes paramsArray 0 with
        | Except.error e => Except.error e
        | Except.ok vals => Except.ok (GoArg.recv :: vals)

/-! ### Invocation (serviceManager.callMethod) -/

/-- callMethod: resolve the descriptor, decode the parameters, invoke the
method (the invocation always runs, mutating the service state), then: for
events return (nil, nil); otherwise defensively check the output arity and
that the last output is error-typed, and return
(response[0].Interface(), the error output).  The triple is
(new service state, result interface, error). -/
def callMethod (m : ServiceManager) (name : String) (params : Option Json)
    (st : ServState) : ServState × Option Json × Option GoErr :=
  match getMethod m name with
  | Except.error e => (st, none, some (GoErr.rpc e))
  | Except.ok method =>
    match decodeParams method params with
    | Except.error e => (st, none, some (GoErr.rpc e))
    | Except.ok paramValues =>
      let stepped := method.impl paramValues st
      let st2 := stepped.1
      if method.isEvent then
        (st2, none, none)
      else
        match stepped.2 with
        | [rv, ev] =>
          match ev with
          | OutVal.errv e => (st2, outIface rv, e)
          | OutVal.val _ =>
            (st2, none, some (GoErr.plain "Last parameter should have been an error"))
        | other =>
          (st2, none, some (GoErr.plain s!"Response should had 2 values, got: {other.length}"))

/-! ### Session (client.go) -/

/-- An entry on the polymorphic outbound queue: an outgoing request (local
call or event) or a response to a remote request. -/
inductive OutMsg where
  | req (r : Request)
  | resp (r : Response)

/-- The per-connection session (`WsJsonClient`).  The id-sequence channel is
modelled by the count of ids drawn so far (`idSeqPos`); result channels are
numbered handles (`nextChan` is the next fresh one); a send on a pending
channel is recorded in `deliveries`; `output` is the outbound queue. -/
structure Client where
  manager : ServiceManager
  pendingResults : List (Int × Nat)
  nextChan : Nat
  idSeqPos : Nat
  output : List OutMsg
  deliveries : List (Nat × Option Json)
  servState : ServState

/-- The value produced by the id-sequence goroutine on its first send:
`for i := 1; ...` starts at one. -/
def idSeqInit : Int := 1

/-- How the goroutine's loop changes `i` between two sends: the loop
`for i := 1; ; \x7b idSeq <- i \x7d` has no post statement, so `i` is
unchanged. -/
def idSeqStep (i : Int) : Int := i

/-- The value delivered by the `n`-th receive from the id-sequence channel. -/
def idSeqValue : Nat → Int
  | 0 => idSeqInit
  | n + 1 => idSeqStep (idSeqValue n)

/-- addPendingResult: map assignment under the results mutex. -/
def addPendingResult (c : Client) (id : Int) (ch : Nat) : Client :=
  { c with pendingResults := mapInsert c.pendingResults id ch }

/-- removePendingResult: atomic lookup-and-delete; returns the channel if one
was registered. -/
def removePendingResult (c : Client) (id : Int) : Client × Option Nat :=
  match mapLookup c.pendingResults id with
  | none => (c, none)
  | some ch =>
    ({ c with pendingResults := c.pendingResults.filter (fun p => p.1 != id) }, some ch)

/-- Go's `int(f)` on the float64 id: truncation toward zero, which on the
exact rational view is T-division of numerator by denominator. -/
def goInt (q : ℚ) : Int := Int.tdiv q.num (q.den : Int)

/-- handleResult: a result frame with a nil id, or an id that fails the
float64 type assertion, is logged and dropped; a numeric id is truncated to
int and the matching pending channel, if any, receives the raw result and is
closed (a send is recorded in `deliveries`).  Log messages are modelled by
their printf prefixes.  No response frame is ever produced. -/
def handleResult (c : Client) (request : Request) : Client × Option Response × List String :=
  match request.id with
  | none => (c, none, ["Result with null id received"])
  | some idRaw =>
    match idRaw with
    | Json.num q =>
      let id := goInt q
      let taken := removePendingResult c id
      match taken.2 with
      | none => (taken.1, none, [s!"No previous request found for result.id:{id}"])
      | some ch =>
        ({ taken.1 with deliveries := taken.1.deliveries ++ [(ch, request.result)] }, none, [])
    | _ => (c, none, ["Result id must be an integer"])

/-- handleRequest: dispatch to the registry; a typed `*Error` is wrapped as an
error response echoing the request id, any other error as INTERNAL_ERROR;
a non-nil result becomes a result response; a nil result (the code's marker
for events — but also any nil interface returned by a call method) produces
no response. -/
def handleRequest (c : Client) (request : Request) : Client × Option Response :=
  let r := callMethod c.manager request.method request.params c.servState
  let c2 := { c with servState := r.1 }
  match r.2.2 with
  | some (GoErr.rpc e) =>
    (c2, some { NewErrorResponse e with id := request.id })
  | some (GoErr.plain msg) =>
    (c2, some (makeError request ErrorInternalError msg))
  | none =>
    match r.2.1 with
    | some v =>
      (c2, some { version := JSONRPCVersion, result := some v, err := none, id := request.id })
    | none => (c2, none)

/-- handleMessage: parse the inbound bytes (`Except.error` models a JSON
decode failure), check the version, reject frames carrying both params and
result, then route to result or request handling.  The third component is
the log output. -/
def handleMessage (c : Client) (msg : Except Unit Request) :
    Client × Option Response × List String :=
  match msg with
  | Except.error _ =>
    (c, some (NewErrorResponse (newErr ErrorParse "Parse Error")), [])
  | Except.ok request =>
    if request.version ≠ JSONRPCVersion then
      (c, some (makeError request ErrorInvalidRequest "Invalid JSONRPC Version"), [])
    else if request.result.isSome && request.params.isSome then
      (c, some (makeError request ErrorInvalidRequest
        "Message can\x27t have both \x27params\x27 and \x27result\x27 present"), [])
    else if request.result.isSome then
      handleResult c request
    else
      let hr := handleRequest c request
      (hr.1, hr.2, [])

/-- SendMessage: marshal the params (the embedding receives them as a `Json`
value, so marshalling succeeds; the failure path returns before touching the
queue and is not modelled), build the outgoing request, and — for method
calls — draw the next id from the sequence, register a fresh result channel
under it, and attach the id; finally enqueue.  Returns the result channel
handle for method calls. -/
def SendMessage (c : Client) (name : String) (params : Json) (isMethod : Bool) :
    Client × Option Nat :=
  let request0 : Request :=
    { version := JSONRPCVersion, method := name, params := some params,
      result := none, id := none }
  if isMethod then
    let id := idSeqValue c.idSeqPos
    let c1 := { c with idSeqPos := c.idSeqPos + 1 }
    let chr := c1.nextChan
    let c2 := addPendingResult { c1 with nextChan := chr + 1 } id chr
    let request := { request0 with id := some (Json.num (id : ℚ)) }
    ({ c2 with output := c2.output ++ [OutMsg.req request] }, some chr)
  else
    ({ c with output := c.output ++ [OutMsg.req request0] }, none)

/-- CallMethod: SendMessage with an id and a result channel. -/
def CallMethod (c : Client) (name : String) (params : Json) : Client × Option Nat :=
  SendMessage c name params true

/-- SendEvent: SendMessage without an id. -/
def SendEvent (c : Client) (name : String) (params : Json) : Client :=
  (SendMessage c name params false).1

/-- newWsJsonClient: require at least one service, then register each in a
fresh manager (any registration error aborts construction and no session is
created). -/
def newWsJsonClient (services : List (Option ServiceInstance)) : Except String Client :=
  if services.length = 0 then
    Except.error "At least one service is required"
  else
    match services.foldlM (fun mgr s => addService mgr s) newServiceManager with
    | Except.error e => Except.error e
    | Except.ok mgr =>
      Except.ok { manager := mgr, pendingResults := [], nextChan := 0, idSeqPos := 0,
                  output := [], deliveries := [], servState := [] }

/-! ### Concrete fixtures

Instances mirroring the test services of the repository, used to instantiate
the theorems below on concrete inputs. -/

/-- The field layout of the `AllTypes` test struct. -/
def allTypesFields : List (String × GoType) :=
  [("number", GoType.intT), ("name", GoType.stringT),
   ("price", GoType.floatT), ("flag", GoType.boolT)]

/-- The `AllTypes` struct type. -/
def allTypesT : GoType := GoType.structT "AllTypes" allTypesFields

/-- Behaviour of `ApiFoo`: returns a string and a nil error. -/
def implFoo : List GoArg → ServState → ServState × List OutVal :=
  fun _ st => (st, [OutVal.val (some (Json.str "foo")), OutVal.errv none])

/-- Behaviour of `ApiBar`: returns a string and a nil error. -/
def implBar : List GoArg → ServState → ServState × List OutVal :=
  fun _ st => (st, [OutVal.val (some (Json.str "bar")), OutVal.errv none])

/-- Reflect view of `ApiFoo` on service SA. -/
def gmFoo : GoMethod :=
  { name := "ApiFoo", pkgPath := "", inTypes := [GoType.ptrT (GoType.structT "SA" [])],
    outs := [GoType.stringT, GoType.errorT], impl := implFoo }

/-- Reflect view of `ApiBar` on service SB. -/
def gmBar : GoMethod :=
  { name := "ApiBar", pkgPath := "", inTypes := [GoType.ptrT (GoType.structT "SB" [])],
    outs := [GoType.stringT, GoType.errorT], impl := implBar }

/-- A service instance whose derived name is "S" exposing `Foo`. -/
def instA : ServiceInstance :=
  { typeName := "SA", wsName := some "S", wsPfx := none, wsMethods := none,
    methods := [gmFoo] }

/-- A second, different service instance whose derived name is also "S",
exposing `Bar`. -/
def instB : ServiceInstance :=
  { typeName := "SB", wsName := some "S", wsPfx := none, wsMethods := none,
    methods := [gmBar] }

/-- The descriptor `addService` builds for `ApiFoo`. -/
def smFoo : ServiceMethod :=
  { methodName := "ApiFoo", argTypes := [], isEvent := false,
    returnType := some GoType.stringT, impl := implFoo }

/-- The descriptor `addService` builds for `ApiBar`. -/
def smBar : ServiceMethod :=
  { methodName := "ApiBar", argTypes := [], isEvent := false,
    returnType := some GoType.stringT, impl := implBar }

/-- The registry after registering `instA`: "S" maps to \x7bFoo\x7d. -/
def mgrS : ServiceManager := { services := [("S", { methods := [("Foo", smFoo)] })] }

/-- The registry expected after re-registering under "S" with `instB`. -/
def mgrS2 : ServiceManager := { services := [("S", { methods := [("Bar", smBar)] })] }

/-- A fresh session over `mgrS`, as `newWsJsonClient` constructs it. -/
def clientFresh : Client :=
  { manager := mgrS, pendingResults := [], nextChan := 0, idSeqPos := 0,
    output := [], deliveries := [], servState := [] }

/-- The ids carried by the entries of an outbound queue. -/
def outIds (l : List OutMsg) : List (Option Json) :=
  l.map (fun m => match m with
    | OutMsg.req r => r.id
    | OutMsg.resp r => r.id)

/-- First outbound call on a fresh session. -/
def c1Step1 : Client × Option Nat := SendMessage clientFresh "peer.m1" Json.null true

/-- Second outbound call on the same session. -/
def c1Step2 : Client × Option Nat := SendMessage c1Step1.1 "peer.m2" Json.null true

/-- Behaviour of `ApiAnObject`: returns the struct's number and a nil
error. -/
def implAnObject : List GoArg → ServState → ServState × List OutVal :=
  fun _ st => (st, [OutVal.val (some (Json.num 1979)), OutVal.errv none])

/-- The descriptor of `ApiAnObject(param AllTypes) (int, error)`: one
non-receiver argument of struct type. -/
def anObjectMethod : ServiceMethod :=
  { methodName := "ApiAnObject", argTypes := [allTypesT], isEvent := false,
    returnType := some GoType.intT, impl := implAnObject }

/-- Behaviour of a call method `func () (interface\x7b\x7d, error)` returning
(nil, nil): both outputs are nil interfaces. -/
def implNilGet : List GoArg → ServState → ServState × List OutVal :=
  fun _ st => (st, [OutVal.val none, OutVal.errv none])

/-- Reflect view of `ApiGet() (interface\x7b\x7d, error)` on NilSvc. -/
def gmNilGet : GoMethod :=
  { name := "ApiGet", pkgPath := "", inTypes := [GoType.ptrT (GoType.structT "NilSvc" [])],
    outs := [GoType.anyT, GoType.errorT], impl := implNilGet }

/-- The descriptor `newServiceMethod` builds for `ApiGet`. -/
def smNilGet : ServiceMethod :=
  { methodName := "ApiGet", argTypes := [], isEvent := false,
    returnType := some GoType.anyT, impl := implNilGet }

/-- A registry exposing NilSvc.Get. -/
def mgrNil : ServiceManager := { services := [("NilSvc", { methods := [("Get", smNilGet)] })] }

/-- A session over `mgrNil`. -/
def clientNil : Client :=
  { manager := mgrNil, pendingResults := [], nextChan := 0, idSeqPos := 0,
    output := [], deliveries := [], servState := [] }

/-- The inbound frame `\x7b"jsonrpc":"2.0","method":"NilSvc.Get","id":7\x7d`. -/
def reqNilGet : Request :=
  { version := "2.0", method := "NilSvc.Get", params := none, result := none,
    id := some (Json.num 7) }

/-- Behaviour of `ApiEvent(event string)`: records the event in the service
state and returns no outputs. -/
def implEvent : List GoArg → ServState → ServState × List OutVal :=
  fun _ st => (st ++ [Json.str "event happened"], [])

/-- The descriptor of the event method `ApiEvent(event string)`. -/
def smEvent : ServiceMethod :=
  { methodName := "ApiEvent", argTypes := [GoType.stringT], isEvent := true,
    returnType := none, impl := implEvent }

/-- A registry exposing SimpleService.Event. -/
def mgrEvent : ServiceManager :=
  { services := [("SimpleService", { methods := [("Event", smEvent)] })] }

/-- A session over `mgrEvent`. -/
def clientEvent : Client :=
  { manager := mgrEvent, pendingResults := [], nextChan := 0, idSeqPos := 0,
    output := [], deliveries := [], servState := [] }

/-- An event frame with decodable params and no id. -/
def reqEventOk : Request :=
  { version := "2.0", method := "SimpleService.Event",
    params := some (Json.arr [Json.str "hello!"]), result := none, id := none }

/-- An event frame with a wrong-arity params array and no id. -/
def reqEventBad : Request :=
  { version := "2.0", method := "SimpleService.Event",
    params := some (Json.arr []), result := none, id := none }

/-- Behaviour of `GetTheSecretOfLife() (int, error)`. -/
def implSecret : List GoArg → ServState → ServState × List OutVal :=
  fun _ st => (st, [OutVal.val (some (Json.num 42)), OutVal.errv none])

/-- The descriptor of the zero-argument call method `GetTheSecretOfLife`. -/
def smSecret : ServiceMethod :=
  { methodName := "GetTheSecretOfLife", argTypes := [], isEvent := false,
    returnType := some GoType.intT, impl := implSecret }

/-- A session with one pending outbound call registered under id 6 on
channel 0. -/
def clientPend : Client :=
  { manager := mgrS, pendingResults := [(6, 0)], nextChan := 1, idSeqPos := 1,
    output := [], deliveries := [], servState := [] }

/-- The rational 6.5 = 13/2 given in normalized form (numerator and
denominator as literal fields, so that the embedding's arithmetic on it
reduces definitionally). -/
def sixHalf : ℚ := ⟨13, 2, by decide, by norm_num [Nat.Coprime]⟩

/-- A result frame whose id is the non-integral number 6.5. -/
def reqHalfId : Request :=
  { version := "2.0", method := "", params := none,
    result := some (Json.str "payload"), id := some (Json.num sixHalf) }

/-- A result frame whose id is the string "yadayada". -/
def reqStrId : Request :=
  { version := "2.0", method := "", params := none,
    result := some (Json.arr [Json.num 1, Json.num 2, Json.num 3]),
    id := some (Json.str "yadayada") }

/-! ### Theorems for the claims -/

/-- C1: the claim says successive ids drawn for outbound calls are strictly
increasing and unique while pending.  Evaluating the code at the failing
input: the id-sequence loop has no increment, so the first two draws both
yield 1; after two `SendMessage` calls on a fresh session both outbound
requests carry id 1 and the pending table holds a single entry — the second
registration overwrote the first, whose channel 0 is orphaned. -/
theorem C1_ids_all_one :
    newWsJsonClient [some instA] = Except.ok clientFresh ∧
    idSeqValue 0 = 1 ∧ idSeqValue 1 = 1 ∧
    outIds c1Step2.1.output = [some (Json.num ((1 : Int) : ℚ)), some (Json.num ((1 : Int) : ℚ))] ∧
    c1Step2.1.pendingResults = [(1, 1)] :=
  ⟨rfl, rfl, rfl, rfl, rfl⟩

/-- C2 counterexample: `ApiAnObject` takes exactly one struct argument.  The
claim says an array params (or absent params) follows the array case, so
`[\x7b"number":1979\x7d]` (length 1, element decodable into the struct)
should succeed and absent params should fail the arity check.  The code
instead applies the object-decoding path unconditionally and both inputs
yield INVALID_PARAMS "Params must be an object". -/
theorem C2_counterexample :
    decodeParams anObjectMethod (some (Json.arr [Json.obj [("number", Json.num 1979)]])) =
      Except.error (newErr ErrorInvalidParams "Params must be an object") ∧
    decodeParams anObjectMethod none =
      Except.error (newErr ErrorInvalidParams "Params must be an object") ∧
    ("Params must be an object" : String) ≠ "Wrong number of arguments, expected: 1, got: 0" :=
  ⟨rfl, rfl, by decide⟩

/-- C2 amended: for a method whose single non-receiver argument is a struct
or pointer-to-struct, decodeParams always takes the object-decoding path,
whatever the shape of params: present params that unmarshal into the struct
succeed, and everything else — including a JSON array and absent params —
fails with INVALID_PARAMS "Params must be an object"; the array case is
never reached for such a method. -/
theorem C2_amended (sm : ServiceMethod) (t : GoType) (sn : String)
    (sf : List (String × GoType)) (params : Option Json)
    (hargs : sm.argTypes = [t]) (hstruct : derefOnce t = GoType.structT sn sf) :
    decodeParams sm params =
      (match params with
       | none => Except.error (newErr ErrorInvalidParams "Params must be an object")
       | some pj =>
         if canUnmarshal (GoType.structT sn sf) pj then
           Except.ok [GoArg.recv, GoArg.val t pj]
         else Except.error (newErr ErrorInvalidParams "Params must be an object")) := by
  unfold decodeParams
  simp only [hargs, hstruct]

/-- C2 witness: the amended statement evaluated at `ApiAnObject` with an
object params. -/
theorem C2_witness :
    anObjectMethod.argTypes = [allTypesT] ∧
    decodeParams anObjectMethod (some (Json.obj [("number", Json.num 1979)])) =
      Except.ok [GoArg.recv, GoArg.val allTypesT (Json.obj [("number", Json.num 1979)])] := by
  refine ⟨rfl, ?_⟩
  have h := C2_amended anObjectMethod allTypesT "AllTypes" allTypesFields
    (some (Json.obj [("number", Json.num 1979)])) rfl rfl
  rw [h]
  rfl

/-- C3: a request with id 7 resolving to the registered, validated call
method `NilSvc.Get` (`func () (interface\x7b\x7d, error)`) whose handler
returns a nil interface value and a nil error: parameter decoding succeeds,
yet handleMessage produces no response frame — the `result != nil` gate in
handleRequest, meant to swallow events, also swallows this call's
response, while the claim (spec property P1) requires exactly one response
carrying id 7. -/
theorem C3_nil_result_drops_response :
    newServiceMethod gmNilGet = Except.ok smNilGet ∧
    smNilGet.isEvent = false ∧
    getMethod mgrNil "NilSvc.Get" = Except.ok smNilGet ∧
    decodeParams smNilGet none = Except.ok [GoArg.recv] ∧
    (handleMessage clientNil (Except.ok reqNilGet)).2.1 = none :=
  ⟨rfl, rfl, rfl, rfl, rfl⟩

/-- C4 counterexample: the registry already maps "S" (registered from
`instA`, exposing `Foo`); adding `instB`, whose derived name is also "S",
does not fail — it succeeds and replaces the entry with `instB`'s methods
(`Bar`). -/
theorem C4_counterexample :
    mapLookup mgrS.services "S" = some { methods := [("Foo", smFoo)] } ∧
    addService mgrS (some instB) = Except.ok mgrS2 ∧
    mapLookup mgrS2.services "S" = some { methods := [("Bar", smBar)] } :=
  ⟨rfl, rfl, rfl⟩

/-- C4 amended: addService performs no duplicate-name check.  Whenever it
succeeds, its whole effect is a plain map assignment of the derived name,
overwriting any existing entry (last write wins); in particular a duplicate
derived name never causes an error if the instance itself validates. -/
theorem C4_amended (m : ServiceManager) (inst : ServiceInstance) (m2 : ServiceManager)
    (methods : List (String × ServiceMethod))
    (hb : buildMethodsE inst = Except.ok methods)
    (h : addService m (some inst) = Except.ok m2) :
    m2.services = mapInsert m.services (derivedName inst) { methods := methods } := by
  simp only [addService, hb] at h
  by_cases hn : derivedName inst = ""
  · rw [if_pos hn] at h
    exact absurd h (by simp)
  · rw [if_neg hn] at h
    by_cases hz : methods.length = 0
    · rw [if_pos hz] at h
      exact absurd h (by simp)
    · rw [if_neg hz] at h
      injection h with h2
      rw [← h2]

/-- C4 witness: the amended statement evaluated at the duplicate
registration of `instB` over `mgrS`. -/
theorem C4_witness :
    mgrS2.services = mapInsert mgrS.services (derivedName instB) { methods := [("Bar", smBar)] } :=
  C4_amended mgrS instB mgrS2 [("Bar", smBar)] rfl rfl

/-- C5 counterexample: ".m" does not split into two non-empty parts, so the
claim requires the error message "Invalid method name: .m"; but the code
only counts the parts — [".m" gives "" and "m", count 2] — and proceeds to
the service lookup, failing with "API not found: " instead. -/
theorem C5_counterexample :
    goSplit ".m" '.' = ["", "m"] ∧
    getMethod newServiceManager ".m" =
      Except.error (newErr ErrorMethodNotFound ("API not found: " ++ "")) ∧
    ("API not found: " : String) ≠ "Invalid method name: .m" :=
  ⟨rfl, rfl, by decide⟩

/-- C5 amended: getMethod returns METHOD_NOT_FOUND "Invalid method name: n"
exactly when splitting n on "." yields a part count different from two;
two-part names with empty parts pass this check and instead fail the
service or method lookup. -/
theorem C5_amended (m : ServiceManager) (name : String)
    (h : (goSplit name '.').length ≠ 2) :
    getMethod m name =
      Except.error (newErr ErrorMethodNotFound ("Invalid method name: " ++ name)) := by
  unfold getMethod
  cases hs : goSplit name '.' with
  | nil => rfl
  | cons a t =>
    cases t with
    | nil => rfl
    | cons b t2 =>
      cases t2 with
      | nil => exact absurd (by rw [hs]; rfl) h
      | cons c t3 => rfl

/-- C5 witness: the amended statement evaluated at the three-part name
"a.b.c". -/
theorem C5_witness :
    (goSplit "a.b.c" '.').length ≠ 2 ∧
    getMethod newServiceManager "a.b.c" =
      Except.error (newErr ErrorMethodNotFound ("Invalid method name: " ++ "a.b.c")) :=
  ⟨by decide, C5_amended newServiceManager "a.b.c" (by decide)⟩

/-- C6 counterexample: a result frame with the non-integral id 6.5, on a
session with a pending call registered under id 6.  The claim requires the
frame to be logged ("Result id must be an integer") and dropped with no
delivery; the code's float64 type assertion accepts 6.5, truncates it to 6,
and delivers the payload to pending channel 0 — removing the entry and
logging nothing. -/
theorem C6_counterexample :
    sixHalf = (6.5 : ℚ) ∧
    goInt sixHalf = 6 ∧
    (handleMessage clientPend (Except.ok reqHalfId)).2.2 = [] ∧
    (handleMessage clientPend (Except.ok reqHalfId)).2.1 = none ∧
    (handleMessage clientPend (Except.ok reqHalfId)).1.deliveries =
      [(0, some (Json.str "payload"))] ∧
    (handleMessage clientPend (Except.ok reqHalfId)).1.pendingResults = [] := by
  refine ⟨?_, rfl, rfl, rfl, rfl, rfl⟩
  rw [sixHalf, Rat.mk'_eq_divInt, Rat.divInt_eq_div]
  norm_num

/-- C6 amended: only an id that fails the float64 type assertion — a string,
boolean, array or object — is logged as "Result id must be an integer" and
dropped with no state change; a numeric id (integral or not) is truncated
toward zero to an int and processed as that id. -/
theorem C6_amended (c : Client) (request : Request) (idj : Json)
    (hv : request.version = JSONRPCVersion)
    (hres : request.result.isSome = true)
    (hpar : request.params.isSome = false)
    (hid : request.id = some idj)
    (hnum : ∀ q : ℚ, idj ≠ Json.num q) :
    handleMessage c (Except.ok request) = (c, none, ["Result id must be an integer"]) := by
  cases idj with
  | num q => exact absurd rfl (hnum q)
  | null => simp [handleMessage, handleResult, hv, hres, hpar, hid]
  | bool b => simp [handleMessage, handleResult, hv, hres, hpar, hid]
  | str s => simp [handleMessage, handleResult, hv, hres, hpar, hid]
  | arr xs => simp [handleMessage, handleResult, hv, hres, hpar, hid]
  | obj kvs => simp [handleMessage, handleResult, hv, hres, hpar, hid]

/-- C6 witness: the amended statement evaluated at a string id, matching the
repository's own test input. -/
theorem C6_witness :
    handleMessage clientPend (Except.ok reqStrId) =
      (clientPend, none, ["Result id must be an integer"]) :=
  C6_amended clientPend reqStrId (Json.str "yadayada") rfl rfl rfl rfl
    (fun _ h => Json.noConfusion h)

/-- C7: for a request resolving to a registered event method and carrying no
id, successful parameter decoding yields no response frame (whatever the
handler does to the service state), while a parameter-decoding failure
yields exactly one error response whose id is null. -/
theorem C7_event_responses (c : Client) (request : Request) (sm : ServiceMethod)
    (hget : getMethod c.manager request.method = Except.ok sm)
    (hev : sm.isEvent = true) (hid : request.id = none) :
    (∀ args, decodeParams sm request.params = Except.ok args →
      (handleRequest c request).2 = none) ∧
    (∀ e, decodeParams sm request.params = Except.error e →
      (handleRequest c request).2 =
        some { version := JSONRPCVersion, result := none, err := some e, id := none }) := by
  constructor
  · intro args hdec
    unfold handleRequest callMethod
    simp only [hget, hdec, hev, if_true]
  · intro e hdec
    unfold handleRequest callMethod
    simp only [hget, hdec, hid]
    rfl

/-- C7 witness: the event `SimpleService.Event` with decodable params
produces no response and mutates the service state; with an empty params
array it produces exactly one INVALID_PARAMS response with a null id. -/
theorem C7_witness :
    smEvent.isEvent = true ∧ reqEventOk.id = none ∧
    (handleRequest clientEvent reqEventOk).2 = none ∧
    (handleRequest clientEvent reqEventOk).1.servState = [Json.str "event happened"] ∧
    (handleRequest clientEvent reqEventBad).2 =
      some { version := JSONRPCVersion, result := none,
             err := some (newErr ErrorInvalidParams
               "Wrong number of arguments, expected: 1, got: 0"),
             id := none } := by
  refine ⟨rfl, rfl, ?_, rfl, ?_⟩
  · exact (C7_event_responses clientEvent reqEventOk smEvent rfl rfl rfl).1
      [GoArg.recv, GoArg.val GoType.stringT (Json.str "hello!")] rfl
  · exact (C7_event_responses clientEvent reqEventBad smEvent rfl rfl rfl).2
      (newErr ErrorInvalidParams "Wrong number of arguments, expected: 1, got: 0") rfl

/-- handleResult never produces a response frame, on any input. -/
theorem handleResult_no_response (c : Client) (request : Request) :
    (handleResult c request).2.1 = none := by
  unfold handleResult
  cases request.id with
  | none => rfl
  | some idRaw =>
    cases idRaw with
    | num q =>
      simp only [removePendingResult]
      cases mapLookup c.pendingResults (goInt q) <;> rfl
    | null => rfl
    | bool b => rfl
    | str s => rfl
    | arr xs => rfl
    | obj kvs => rfl

/-- Every response handleRequest returns carries a nil result or a nil
error: the three error wrappings leave result nil, and the success response
leaves the error nil. -/
theorem handleRequest_result_or_err (c : Client) (request : Request) (r : Response)
    (h : (handleRequest c request).2 = some r) : r.result = none ∨ r.err = none := by
  unfold handleRequest at h
  generalize callMethod c.manager request.method request.params c.servState = cm at h
  obtain ⟨st, res, err⟩ := cm
  cases err with
  | none =>
    cases res with
    | none => exact absurd h (by simp)
    | some v =>
      simp only at h
      cases h
      right
      rfl
  | some ge =>
    cases ge with
    | rpc e =>
      simp only at h
      cases h
      left
      rfl
    | plain msg =>
      simp only at h
      cases h
      left
      rfl

/-- C8: every response frame handleMessage produces has a nil result field
or a nil error field — never both non-nil.  The parse, version and
params-and-result error responses carry no result; result frames produce no
response at all; request dispatch yields either an error response with no
result or a result response with no error. -/
theorem C8_no_result_and_error (c : Client) (msg : Except Unit Request) (r : Response)
    (h : (handleMessage c msg).2.1 = some r) : r.result = none ∨ r.err = none := by
  cases msg with
  | error u =>
    unfold handleMessage at h
    simp only at h
    cases h
    left
    rfl
  | ok request =>
    simp only [handleMessage] at h
    by_cases h1 : request.version ≠ JSONRPCVersion
    · rw [if_pos h1] at h
      simp at h
      rw [← h]
      left
      rfl
    · rw [if_neg h1] at h
      by_cases h2 : (request.result.isSome && request.params.isSome) = true
      · rw [if_pos h2] at h
        simp at h
        rw [← h]
        left
        rfl
      · rw [if_neg h2] at h
        by_cases h3 : request.result.isSome = true
        · rw [if_pos h3] at h
          rw [handleResult_no_response] at h
          exact absurd h (by simp)
        · rw [if_neg h3] at h
          simp at h
          exact handleRequest_result_or_err c request r h

/-- C8 witness: the parse-error response on concrete input. -/
theorem C8_witness :
    (handleMessage clientFresh (Except.error ())).2.1 =
      some (NewErrorResponse (newErr ErrorParse "Parse Error")) ∧
    ((NewErrorResponse (newErr ErrorParse "Parse Error")).result = none ∨
      (NewErrorResponse (newErr ErrorParse "Parse Error")).err = none) :=
  ⟨rfl, C8_no_result_and_error clientFresh (Except.error ())
    (NewErrorResponse (newErr ErrorParse "Parse Error")) rfl⟩

/-- C9: a method with no non-receiver arguments decodes successfully —
yielding only the receiver slot — when params is absent, JSON null or the
empty array, and fails with the exact wrong-arity message when params is
[111]. -/
theorem C9_zero_arg_decode (sm : ServiceMethod) (h : sm.argTypes = []) :
    decodeParams sm none = Except.ok [GoArg.recv] ∧
    decodeParams sm (some Json.null) = Except.ok [GoArg.recv] ∧
    decodeParams sm (some (Json.arr [])) = Except.ok [GoArg.recv] ∧
    decodeParams sm (some (Json.arr [Json.num 111])) =
      Except.error (newErr ErrorInvalidParams
        "Wrong number of arguments, expected: 0, got: 1") := by
  unfold decodeParams
  rw [h]
  exact ⟨rfl, rfl, rfl, rfl⟩

/-- C9 witness: the zero-argument method `GetTheSecretOfLife` of the
MethodsProvider test service. -/
theorem C9_witness :
    smSecret.argTypes = [] ∧
    decodeParams smSecret (some (Json.arr [Json.num 111])) =
      Except.error (newErr ErrorInvalidParams
        "Wrong number of arguments, expected: 0, got: 1") :=
  ⟨rfl, (C9_zero_arg_decode smSecret rfl).2.2.2⟩

/-- C10: constructing a session with an empty service list fails with
exactly the error "At least one service is required" and yields no
client. -/
theorem C10_empty_services :
    newWsJsonClient [] = Except.error "At least one service is required" :=
  rfl

end Wsjson
